import Mathlib

/-!
Verification development for the fresnel geometry/attribute layer
(`fresnel/util.py` and `fresnel/geometry.py`).

The Python code is shallowly embedded: backend attribute buffers become
Lean lists over exact rationals, the buffer-view class `util.array`
becomes a state record tracking the buffer contents, the map depth of
the underlying backend buffer, and the number of `update()` signals
issued on the associated geometry's native handle.  Operations that can
raise in Python return an `Option`/`Except`-style error component and
record the state at the point the exception propagates.
-/

namespace Fresnel

/-- A 3-vector of exact rationals, standing for one float32 triple in a
fresnel buffer. -/
abbrev V3 : Type := ℚ × ℚ × ℚ

def vadd (a b : V3) : V3 := (a.1 + b.1, a.2.1 + b.2.1, a.2.2 + b.2.2)

def vdiv2 (a : V3) : V3 := (a.1 / 2, a.2.1 / 2, a.2.2 / 2)

def vneg (a : V3) : V3 := (-a.1, -a.2.1, -a.2.2)

/-- Broadcast subtraction of a scalar from every component, as in
`A - r` for one row of `numpy` column-broadcast arithmetic. -/
def vsubS (a : V3) (r : ℚ) : V3 := (a.1 - r, a.2.1 - r, a.2.2 - r)

/-- Broadcast addition of a scalar to every component. -/
def vaddS (a : V3) (r : ℚ) : V3 := (a.1 + r, a.2.1 + r, a.2.2 + r)

/-- Componentwise minimum, as in `numpy.min` over two rows. -/
def vmin3 (a b : V3) : V3 := (min a.1 b.1, min a.2.1 b.2.1, min a.2.2 b.2.2)

/-- Componentwise maximum. -/
def vmax3 (a b : V3) : V3 := (max a.1 b.1, max a.2.1 b.2.1, max a.2.2 b.2.2)

/-- Models `numpy.min(l)` over a 1-D array: `none` stands for the `ValueError`
raised by a reduction over an empty array. -/
def minL : List ℚ → Option ℚ
  | [] => none
  | x :: xs => some (xs.foldl min x)

/-- Models `numpy.max(l)` over a 1-D array; `none` stands for the empty-reduction
`ValueError`. -/
def maxL : List ℚ → Option ℚ
  | [] => none
  | x :: xs => some (xs.foldl max x)

/-- Models `numpy.min(_, axis=0)` over an N×3 array (componentwise reduction);
`none` models the empty-reduction `ValueError`. -/
def npMin3 : List V3 → Option V3
  | [] => none
  | x :: xs => some (xs.foldl vmin3 x)

/-- Models `numpy.max(_, axis=0)` over an N×3 array. -/
def npMax3 : List V3 → Option V3
  | [] => none
  | x :: xs => some (xs.foldl vmax3 x)

/-!
Buffer views: `fresnel.util.array`.

The Python class holds `buf` (the backend buffer) and `geom` (the owning
geometry, or `None`).  We track in addition the buffer's map depth and
the count of `update()` calls issued on the associated geometry's native
handle, so that the map/unmap discipline and the update-signal contract
become stateful facts.
-/

structure array (α : Type) where
  buf : List α
  geom : Bool
  mapDepth : Nat
  updates : Nat
deriving DecidableEq, Repr

/-- The element copy `a[slice] = data` of `array.__setitem__`, with the
slice modelled as an explicit index list.  `none` models the `numpy`
exception on an out-of-range index or a shape that neither matches the
slice nor is a broadcastable single element. -/
def writeIdxs {α : Type} (buf : List α) (idxs : List Nat) (data : List α) :
    Option (List α) :=
  if idxs.all (fun i => decide (i < buf.length)) then
    match data with
    | [x] => some (idxs.foldl (fun b i => b.set i x) buf)
    | _ =>
      if data.length = idxs.length then
        some ((idxs.zip data).foldl (fun b p => b.set p.1 p.2) buf)
      else none
  else none

/-- The element copy `a[slice]` of `array.__getitem__`; `none` models an
out-of-range index exception. -/
def readIdxs {α : Type} (buf : List α) (idxs : List Nat) : Option (List α) :=
  idxs.mapM (fun i => buf.get? i)

/-- Embeds `util.array.__setitem__`: map the buffer, copy the data in, unmap,
then — when a geometry is associated — issue one `update()` on its
native handle.  The source has no exception handler, so when the copy
raises the error propagates with the buffer still mapped and no update
issued. -/
def array.setitem {α : Type} (v : array α) (idxs : List Nat) (data : List α) :
    array α × Option String :=
  let v1 : array α := { v with mapDepth := v.mapDepth + 1 }
  match writeIdxs v1.buf idxs data with
  | none => (v1, some "index or shape error in element copy")
  | some b =>
    let v2 : array α := { v1 with buf := b, mapDepth := v1.mapDepth - 1 }
    if v2.geom then ({ v2 with updates := v2.updates + 1 }, none)
    else (v2, none)

/-- Embeds `util.array.__getitem__`: map, copy the requested range out, unmap,
return the copy.  A failing copy propagates with the buffer mapped. -/
def array.getitem {α : Type} (v : array α) (idxs : List Nat) :
    array α × Option (List α) :=
  let v1 : array α := { v with mapDepth := v.mapDepth + 1 }
  match readIdxs v1.buf idxs with
  | none => (v1, none)
  | some d => ({ v1 with mapDepth := v1.mapDepth - 1 }, some d)

/-- Embeds `util.array.shape`: a map/unmap round trip that reads the
backend-defined shape (here the leading dimension). -/
def array.shape {α : Type} (v : array α) : array α × Nat :=
  let v1 : array α := { v with mapDepth := v.mapDepth + 1 }
  let v2 : array α := { v1 with mapDepth := v1.mapDepth - 1 }
  (v2, v2.buf.length)

/-- Embeds `util.array.dtype`: a map/unmap round trip that reads the
backend-defined element type tag. -/
def array.dtype {α : Type} (v : array α) : array α × String :=
  let v1 : array α := { v with mapDepth := v.mapDepth + 1 }
  let v2 : array α := { v1 with mapDepth := v1.mapDepth - 1 }
  (v2, "float32")

/-- A concrete geometry-associated view used to instantiate theorems. -/
def viewG : array ℚ := { buf := [0, 0, 0], geom := true, mapDepth := 0, updates := 0 }

/-- A concrete view with no associated geometry. -/
def viewN : array ℚ := { buf := [0, 0, 0], geom := false, mapDepth := 0, updates := 0 }

/-!
Embedding of `Cylinder.get_extents`.

`A = points[:, 0]` and `B = points[:, 1]` are the N×3 endpoint arrays,
`r` the radius column; the code reduces
`min(min(A - r, axis=0), min(B - r, axis=0))` and the mirror image with
`max`/`+ r`.  Radii broadcast against the endpoints row by row, which
requires the radius buffer to have the same leading dimension as the
points buffer (guaranteed for a real Cylinder, whose backend sizes both
to N); a mismatch, like the reduction over an empty buffer, models the
`numpy` exception as `none`.
-/

def Cylinder.get_extents (points : List (V3 × V3)) (radius : List ℚ) :
    Option (V3 × V3) :=
  if points.length = radius.length then
    let A := points.map Prod.fst
    let B := points.map Prod.snd
    let Alo := List.zipWith (fun a r => vsubS a r) A radius
    let Blo := List.zipWith (fun b r => vsubS b r) B radius
    let Ahi := List.zipWith (fun a r => vaddS a r) A radius
    let Bhi := List.zipWith (fun b r => vaddS b r) B radius
    match npMin3 Alo, npMin3 Blo, npMax3 Ahi, npMax3 Bhi with
    | some mA, some mB, some MA, some MB =>
      some (vmin3 mA mB, vmax3 MA MB)
    | _, _, _, _ => none
  else none

/-- The per-axis list of deflated endpoint coordinates
`endpoint coordinate − that cylinder's radius`, over all cylinders and
both endpoints, along the component selected by `f`. -/
def inflatedLows (f : V3 → ℚ) (ps : List (V3 × V3)) (rs : List ℚ) :
    List ℚ :=
  List.zipWith (fun p r => f (Prod.fst p) - r) ps rs ++
    List.zipWith (fun p r => f (Prod.snd p) - r) ps rs

/-- The per-axis list of inflated endpoint coordinates
`endpoint coordinate + that cylinder's radius`. -/
def inflatedHighs (f : V3 → ℚ) (ps : List (V3 × V3)) (rs : List ℚ) :
    List ℚ :=
  List.zipWith (fun p r => f (Prod.fst p) + r) ps rs ++
    List.zipWith (fun p r => f (Prod.snd p) + r) ps rs

/-- Says `m` is the minimum of the values in `l`. -/
def isMinOf (m : ℚ) (l : List ℚ) : Prop := m ∈ l ∧ ∀ y ∈ l, m ≤ y

/-- Says `m` is the maximum of the values in `l`. -/
def isMaxOf (m : ℚ) (l : List ℚ) : Prop := m ∈ l ∧ ∀ y ∈ l, y ≤ m

/-!
Embedding of `Box`.

A Box is a Cylinder specialization with N fixed to 12.  Its state holds
the stored box parameter, the three backend buffers (points, radius,
color — color entries are per-endpoint pairs, N×2×3), and the material's
`primitive_color_mix` scalar, which the constructor touches when a color
argument is provided.
-/

structure BoxState where
  box : List ℚ
  points : List (V3 × V3)
  radius : List ℚ
  color : List (V3 × V3)
  primitiveColorMix : ℚ
deriving Repr

/-- The body shared by the three accepted branches of
`Box._generate_points`: build the hoomd-convention box matrix
`[[Lx, xy·Ly, xz·Lz], [0, Ly, yz·Lz], [0, 0, Lz]]`, take its columns
`a1, a2, a3`, place corner `A` at `-(a1+a2+a3)/2`, and emit the 12
corner-pair edges in the order of the source. -/
def boxEdges (Lx Ly Lz xy xz yz : ℚ) : List (V3 × V3) :=
  let a1 : V3 := (Lx, 0, 0)
  let a2 : V3 := (xy * Ly, Ly, 0)
  let a3 : V3 := (xz * Lz, yz * Lz, Lz)
  let A := vneg (vdiv2 (vadd (vadd a1 a2) a3))
  let B := vadd A a1
  let C := vadd A a2
  let D := vadd A a3
  let E := vadd A (vadd a1 a3)
  let F := vadd A (vadd a2 a3)
  let G := vadd A (vadd a1 a2)
  let H := vadd A (vadd (vadd a1 a2) a3)
  [(A, B), (A, C), (A, D), (B, E), (B, G), (C, G), (C, F), (D, E), (D, F),
    (E, H), (F, H), (G, H)]

/-- Embeds `Box._generate_points`: dispatch on the length of the box parameter
(1 cubic, 3 orthorhombic, 6 triclinic); any other length raises. -/
def Box._generate_points (box : List ℚ) : Except String (List (V3 × V3)) :=
  if box.length = 1 then
    .ok (boxEdges (box.getD 0 0) (box.getD 0 0) (box.getD 0 0) 0 0 0)
  else if box.length = 3 then
    .ok (boxEdges (box.getD 0 0) (box.getD 1 0) (box.getD 2 0) 0 0 0)
  else if box.length = 6 then
    .ok (boxEdges (box.getD 0 0) (box.getD 1 0) (box.getD 2 0) (box.getD 3 0)
      (box.getD 4 0) (box.getD 5 0))
  else .error "box must be an array-like of length 1, 3, or 6"

/-- Embeds `Box.__init__` from the state `s0` left by the backend geometry
creation (buffers allocated, nothing written): store `_box`, generate
and write the 12 edge pairs, write the radius (default 0.5) broadcast
over the 12 edges, and, only when a color argument is given, write the
color broadcast per endpoint and set the material's
`primitive_color_mix` to 1.  A failing `_generate_points` propagates
before any buffer write. -/
def Box.init (s0 : BoxState) (box : List ℚ) (radius : Option ℚ)
    (color : Option V3) : BoxState × Option String :=
  let s1 : BoxState := { s0 with box := box }
  match Box._generate_points box with
  | .error e => (s1, some e)
  | .ok pts =>
    let s2 : BoxState := { s1 with points := pts }
    let s3 : BoxState := { s2 with radius := List.replicate 12 (radius.getD (1/2)) }
    match color with
    | some col =>
      ({ s3 with color := List.replicate 12 (col, col), primitiveColorMix := 1 },
        none)
    | none => (s3, none)

/-- The `Box.box` property setter: store the new parameter, then
regenerate and write the 12 edge pairs; radius and color are untouched. -/
def Box.box_setter (s : BoxState) (b : List ℚ) : BoxState × Option String :=
  let s1 : BoxState := { s with box := b }
  match Box._generate_points b with
  | .error e => (s1, some e)
  | .ok pts => ({ s1 with points := pts }, none)

/-- The `Box.points` property setter: the source body is a single
unconditional `raise AttributeError`, so every attribute assignment
fails and the state is untouched. -/
def Box.points_setter (s : BoxState) (v : List (V3 × V3)) :
    BoxState × Option String :=
  (s, some "points attribute should not be set manually. Please set box instead.")

/-- An element/slice write to `Box.points` through the buffer view the
`points` property getter returns (`util.array` with `geom=self`):
returns the new state, the number of update signals issued, and the
error component. -/
def Box.points_slice_write (s : BoxState) (idxs : List Nat)
    (data : List (V3 × V3)) : BoxState × Nat × Option String :=
  let v : array (V3 × V3) :=
    { buf := s.points, geom := true, mapDepth := 0, updates := 0 }
  let res := array.setitem v idxs data
  ({ s with points := res.1.buf }, res.1.updates, res.2)

/-- The state of a Box right after the backend created its 12-cylinder
buffers and before `__init__` writes anything: buffers zeroed. -/
def boxZero : BoxState :=
  { box := []
    points := List.replicate 12 ((0, 0, 0), (0, 0, 0))
    radius := List.replicate 12 0
    color := List.replicate 12 ((0, 0, 0), (0, 0, 0))
    primitiveColorMix := 0 }

/-- The 8 corners of the cube spanning `[-1,1]³`. -/
def cubeCorners : List V3 :=
  [(-1, -1, -1), (1, -1, -1), (-1, 1, -1), (-1, -1, 1), (1, -1, 1),
    (-1, 1, 1), (1, 1, -1), (1, 1, 1)]

/-- The 24 endpoint coordinates of an edge list, both ends of every
edge. -/
def endpointsOf (l : List (V3 × V3)) : List V3 :=
  l.flatMap (fun e => [e.1, e.2])

/-- The value `Box._generate_points` returns for `box=[2,2,2]`,
written out. -/
def edges222 : List (V3 × V3) :=
  [((-1, -1, -1), (1, -1, -1)), ((-1, -1, -1), (-1, 1, -1)),
    ((-1, -1, -1), (-1, -1, 1)), ((1, -1, -1), (1, -1, 1)),
    ((1, -1, -1), (1, 1, -1)), ((-1, 1, -1), (1, 1, -1)),
    ((-1, 1, -1), (-1, 1, 1)), ((-1, -1, 1), (1, -1, 1)),
    ((-1, -1, 1), (-1, 1, 1)), ((1, -1, 1), (1, 1, 1)),
    ((-1, 1, 1), (1, 1, 1)), ((1, 1, -1), (1, 1, 1))]

/-!
Embedding of `Mesh.get_extents`.

The source takes `a = vertices[:, 0]`, `b = vertices[:, 1]`,
`c = vertices[:, 2]` — for a (3T)×3 vertex array these are the x, y and
z coordinate columns — reduces each to a scalar, reduces the three
scalars again to the global minimum (resp. maximum) coordinate `r[0]`
(resp. `r[1]`), and finally adds those scalars to the per-axis min/max
of the instance positions.
-/

def Mesh.get_extents (vertices : List V3) (position : List V3) :
    Option (V3 × V3) :=
  let a := vertices.map (fun v => v.1)
  let b := vertices.map (fun v => v.2.1)
  let c := vertices.map (fun v => v.2.2)
  match minL a, minL b, minL c, maxL a, maxL b, maxL c with
  | some ma, some mb, some mc, some Ma, some Mb, some Mc =>
    let r0 := min (min ma mb) mc
    let r1 := max (max Ma Mb) Mc
    match npMin3 (position.map (fun p => vaddS p r0)),
        npMax3 (position.map (fun p => vaddS p r1)) with
    | some lo, some hi => some (lo, hi)
    | _, _ => none
  | _, _, _, _, _, _ => none

/-- The extents algorithm as the spec words it: the axis-aligned
bounding box of the unrotated template vertices, translated by the
min/max range of the instance positions — per axis `k` the minimum is
`min position_k + min vertex_k` and the maximum is
`max position_k + max vertex_k`.  Kept separate from `Mesh.get_extents`
(the faithful embedding of the source) for comparison. -/
def Mesh.get_extents_spec (vertices : List V3) (position : List V3) :
    Option (V3 × V3) :=
  match npMin3 vertices, npMax3 vertices, npMin3 position, npMax3 position with
  | some vlo, some vhi, some plo, some phi =>
    some (vadd plo vlo, vadd phi vhi)
  | _, _, _, _ => none

/-!
Theorems.
-/

/-- Claim C1: a successful `array.__setitem__` issues exactly one
`update()` on the associated geometry's native handle when the view
holds a geometry, and none when `geom` is `None`, regardless of how many
elements the index list covers (including a single element). -/
theorem array_setitem_update_signal {α : Type} (v : array α)
    (idxs : List Nat) (data : List α)
    (hok : (array.setitem v idxs data).2 = none) :
    (array.setitem v idxs data).1.updates =
      v.updates + (if v.geom then 1 else 0) := by
  unfold array.setitem at hok ⊢
  cases hw : writeIdxs v.buf idxs data with
  | none => simp [hw] at hok
  | some b =>
    by_cases hg : v.geom <;> simp [hw, hg]

/-- Witness for C1: a single-element write on a geometry-associated view
succeeds and issues exactly one update; the same write on a
geometry-free view issues none. -/
theorem array_setitem_update_signal_witness :
    (array.setitem viewG [1] [(5 : ℚ)]).1.updates = 1 ∧
      (array.setitem viewN [1] [(5 : ℚ)]).1.updates = 0 := by
  constructor
  · have h := array_setitem_update_signal viewG [1] [(5 : ℚ)] (by decide)
    simpa [viewG] using h
  · have h := array_setitem_update_signal viewN [1] [(5 : ℚ)] (by decide)
    simpa [viewN] using h

/-- Counterexample for claim C3: a write whose element copy fails (index
5 into a buffer of length 3) raises while the buffer is still mapped —
the map depth went from 0 to 1 and no unmap ran on the error path. -/
theorem setitem_error_leaves_mapped :
    (array.setitem viewG [5] [(1 : ℚ)]).2.isSome = true ∧
      (array.setitem viewG [5] [(1 : ℚ)]).1.mapDepth = 1 := by
  decide

/-- Claim C3, amended: on the successful path of every buffer-view
operation each map is followed by an unmap (final map depth equals the
initial one), and `shape`/`dtype` always balance; but when the element
copy of `set` or `get` fails, the exception propagates with the buffer
still mapped (map depth one above the initial depth). -/
theorem array_map_unmap_discipline {α : Type} (v : array α)
    (idxs : List Nat) (data : List α) :
    ((array.setitem v idxs data).2 = none →
      (array.setitem v idxs data).1.mapDepth = v.mapDepth) ∧
    ((array.setitem v idxs data).2.isSome = true →
      (array.setitem v idxs data).1.mapDepth = v.mapDepth + 1) ∧
    ((array.getitem v idxs).2.isSome = true →
      (array.getitem v idxs).1.mapDepth = v.mapDepth) ∧
    ((array.getitem v idxs).2 = none →
      (array.getitem v idxs).1.mapDepth = v.mapDepth + 1) ∧
    (array.shape v).1.mapDepth = v.mapDepth ∧
    (array.dtype v).1.mapDepth = v.mapDepth := by
  refine ⟨?_, ?_, ?_, ?_, ?_, ?_⟩
  · intro hok
    unfold array.setitem at hok ⊢
    cases hw : writeIdxs v.buf idxs data with
    | none => simp [hw] at hok
    | some b => by_cases hg : v.geom <;> simp [hw, hg]
  · intro herr
    unfold array.setitem at herr ⊢
    cases hw : writeIdxs v.buf idxs data with
    | none => simp [hw]
    | some b => by_cases hg : v.geom <;> simp [hw, hg] at herr
  · intro hok
    unfold array.getitem at hok ⊢
    cases hr : readIdxs v.buf idxs with
    | none => simp [hr] at hok
    | some d => simp [hr]
  · intro herr
    unfold array.getitem at herr ⊢
    cases hr : readIdxs v.buf idxs with
    | none => simp [hr]
    | some d => simp [hr] at herr
  · simp [array.shape]
  · simp [array.dtype]

/-- Witness for the amended C3: on a concrete in-range write the map
depth is balanced, and on a concrete failing read it is one above. -/
theorem array_map_unmap_discipline_witness :
    (array.setitem viewG [1] [(7 : ℚ)]).1.mapDepth = 0 ∧
      (array.getitem viewG [9]).1.mapDepth = 1 := by
  constructor
  · have h := (array_map_unmap_discipline viewG [1] [(7 : ℚ)]).1 (by decide)
    simpa [viewG] using h
  · have h := (array_map_unmap_discipline viewG [9] ([] : List ℚ)).2.2.2.1
      (by decide)
    simpa [viewG] using h

theorem foldl_min_mem (xs : List ℚ) (x : ℚ) : xs.foldl min x ∈ x :: xs := by
  induction xs generalizing x with
  | nil => simp [List.foldl]
  | cons y ys ih =>
    have h := ih (min x y)
    rcases min_choice x y with hc | hc <;>
      simp only [List.foldl] <;> rw [hc] at h ⊢ <;>
      rcases List.mem_cons.mp h with h1 | h1 <;> simp [h1]

theorem foldl_min_le_init (xs : List ℚ) (x : ℚ) : xs.foldl min x ≤ x := by
  induction xs generalizing x with
  | nil => simp [List.foldl]
  | cons y ys ih =>
    simpa using le_trans (ih (min x y)) (min_le_left x y)

theorem foldl_min_le_mem (xs : List ℚ) (x y : ℚ) (hy : y ∈ xs) :
    xs.foldl min x ≤ y := by
  induction xs generalizing x with
  | nil => cases hy
  | cons z zs ih =>
    rcases List.mem_cons.mp hy with h1 | h1
    · subst h1
      simpa using le_trans (foldl_min_le_init zs (min x y)) (min_le_right x y)
    · simpa using ih (min x z) h1

theorem foldl_max_mem (xs : List ℚ) (x : ℚ) : xs.foldl max x ∈ x :: xs := by
  induction xs generalizing x with
  | nil => simp [List.foldl]
  | cons y ys ih =>
    have h := ih (max x y)
    rcases max_choice x y with hc | hc <;>
      simp only [List.foldl] <;> rw [hc] at h ⊢ <;>
      rcases List.mem_cons.mp h with h1 | h1 <;> simp [h1]

theorem foldl_max_ge_init (xs : List ℚ) (x : ℚ) : x ≤ xs.foldl max x := by
  induction xs generalizing x with
  | nil => simp [List.foldl]
  | cons y ys ih =>
    simpa using le_trans (le_max_left x y) (ih (max x y))

theorem foldl_max_ge_mem (xs : List ℚ) (x y : ℚ) (hy : y ∈ xs) :
    y ≤ xs.foldl max x := by
  induction xs generalizing x with
  | nil => cases hy
  | cons z zs ih =>
    rcases List.mem_cons.mp hy with h1 | h1
    · subst h1
      simpa using le_trans (le_max_right x y) (foldl_max_ge_init zs (max x y))
    · simpa using ih (max x z) h1

/-- The componentwise fold distributes onto a component whenever the
selected component commutes with the binary operation. -/
theorem foldl_comp_comm (f : V3 → ℚ) (g : V3 → V3 → V3) (op : ℚ → ℚ → ℚ)
    (h : ∀ a b, f (g a b) = op (f a) (f b)) (xs : List V3) (x : V3) :
    f (xs.foldl g x) = (xs.map f).foldl op (f x) := by
  induction xs generalizing x with
  | nil => simp [List.foldl]
  | cons y ys ih => simp [List.foldl, h, ih]

theorem isMinOf_min_append (a b : ℚ) (as bs : List ℚ) :
    isMinOf (min (as.foldl min a) (bs.foldl min b)) ((a :: as) ++ (b :: bs)) := by
  constructor
  · rcases min_choice (as.foldl min a) (bs.foldl min b) with hc | hc <;> rw [hc]
    · exact List.mem_append_left _ (foldl_min_mem as a)
    · exact List.mem_append_right _ (foldl_min_mem bs b)
  · intro y hy
    rcases List.mem_append.mp hy with h1 | h1
    · refine le_trans (min_le_left _ _) ?_
      rcases List.mem_cons.mp h1 with h2 | h2
      · exact h2 ▸ foldl_min_le_init as a
      · exact foldl_min_le_mem as a y h2
    · refine le_trans (min_le_right _ _) ?_
      rcases List.mem_cons.mp h1 with h2 | h2
      · exact h2 ▸ foldl_min_le_init bs b
      · exact foldl_min_le_mem bs b y h2

theorem isMaxOf_max_append (a b : ℚ) (as bs : List ℚ) :
    isMaxOf (max (as.foldl max a) (bs.foldl max b)) ((a :: as) ++ (b :: bs)) := by
  constructor
  · rcases max_choice (as.foldl max a) (bs.foldl max b) with hc | hc <;> rw [hc]
    · exact List.mem_append_left _ (foldl_max_mem as a)
    · exact List.mem_append_right _ (foldl_max_mem bs b)
  · intro y hy
    rcases List.mem_append.mp hy with h1 | h1
    · refine le_trans ?_ (le_max_left _ _)
      rcases List.mem_cons.mp h1 with h2 | h2
      · exact h2 ▸ foldl_max_ge_init as a
      · exact foldl_max_ge_mem as a y h2
    · refine le_trans ?_ (le_max_right _ _)
      rcases List.mem_cons.mp h1 with h2 | h2
      · exact h2 ▸ foldl_max_ge_init bs b
      · exact foldl_max_ge_mem bs b y h2

theorem cyl_fold_lo (f : V3 → ℚ)
    (hmin : ∀ a b, f (vmin3 a b) = min (f a) (f b))
    (hsub : ∀ (a : V3) (rr : ℚ), f (vsubS a rr) = f a - rr)
    (p : V3 × V3) (ps : List (V3 × V3)) (r : ℚ) (rs : List ℚ) :
    isMinOf (f (vmin3
      ((List.zipWith (fun a rr => vsubS a rr) (ps.map Prod.fst) rs).foldl
        vmin3 (vsubS p.1 r))
      ((List.zipWith (fun b rr => vsubS b rr) (ps.map Prod.snd) rs).foldl
        vmin3 (vsubS p.2 r))))
      (inflatedLows f (p :: ps) (r :: rs)) := by
  rw [hmin, foldl_comp_comm f vmin3 min hmin, foldl_comp_comm f vmin3 min hmin]
  simp only [List.map_zipWith, List.zipWith_map_left, hsub, inflatedLows,
    List.zipWith]
  exact isMinOf_min_append (f p.1 - r) (f p.2 - r) _ _

theorem cyl_fold_hi (f : V3 → ℚ)
    (hmax : ∀ a b, f (vmax3 a b) = max (f a) (f b))
    (hadd : ∀ (a : V3) (rr : ℚ), f (vaddS a rr) = f a + rr)
    (p : V3 × V3) (ps : List (V3 × V3)) (r : ℚ) (rs : List ℚ) :
    isMaxOf (f (vmax3
      ((List.zipWith (fun a rr => vaddS a rr) (ps.map Prod.fst) rs).foldl
        vmax3 (vaddS p.1 r))
      ((List.zipWith (fun b rr => vaddS b rr) (ps.map Prod.snd) rs).foldl
        vmax3 (vaddS p.2 r))))
      (inflatedHighs f (p :: ps) (r :: rs)) := by
  rw [hmax, foldl_comp_comm f vmax3 max hmax, foldl_comp_comm f vmax3 max hmax]
  simp only [List.map_zipWith, List.zipWith_map_left, hadd, inflatedHighs,
    List.zipWith]
  exact isMaxOf_max_append (f p.1 + r) (f p.2 + r) _ _

/-- Claim C7: for every cylinder set with N ≥ 1 (and the radius buffer
sized to N, as the backend guarantees), `get_extents` returns per axis
the minimum over all cylinders and both endpoints of
`endpoint coordinate − radius` and the maximum of
`endpoint coordinate + radius`; in particular with
`points=[[[0,0,0],[1,0,0]]]` and `radius=[0.5]` it returns
`[[-0.5,-0.5,-0.5],[1.5,0.5,0.5]]`. -/
theorem cylinder_get_extents_minmax :
    (∀ (ps : List (V3 × V3)) (rs : List ℚ), ps ≠ [] →
      ps.length = rs.length →
      ∃ lo hi, Cylinder.get_extents ps rs = some (lo, hi) ∧
        isMinOf lo.1 (inflatedLows (fun v => v.1) ps rs) ∧
        isMinOf lo.2.1 (inflatedLows (fun v => v.2.1) ps rs) ∧
        isMinOf lo.2.2 (inflatedLows (fun v => v.2.2) ps rs) ∧
        isMaxOf hi.1 (inflatedHighs (fun v => v.1) ps rs) ∧
        isMaxOf hi.2.1 (inflatedHighs (fun v => v.2.1) ps rs) ∧
        isMaxOf hi.2.2 (inflatedHighs (fun v => v.2.2) ps rs)) ∧
    Cylinder.get_extents [((0, 0, 0), (1, 0, 0))] [1/2] =
      some ((-(1/2), -(1/2), -(1/2)), (3/2, 1/2, 1/2)) := by
  constructor
  · intro ps rs hne hlen
    cases ps with
    | nil => exact absurd rfl hne
    | cons p ps' =>
      cases rs with
      | nil => simp at hlen
      | cons r rs' =>
        refine ⟨vmin3
            ((List.zipWith (fun a rr => vsubS a rr) (ps'.map Prod.fst)
              rs').foldl vmin3 (vsubS p.1 r))
            ((List.zipWith (fun b rr => vsubS b rr) (ps'.map Prod.snd)
              rs').foldl vmin3 (vsubS p.2 r)),
          vmax3
            ((List.zipWith (fun a rr => vaddS a rr) (ps'.map Prod.fst)
              rs').foldl vmax3 (vaddS p.1 r))
            ((List.zipWith (fun b rr => vaddS b rr) (ps'.map Prod.snd)
              rs').foldl vmax3 (vaddS p.2 r)),
          ?_, ?_, ?_, ?_, ?_, ?_, ?_⟩
        · simp only [Cylinder.get_extents, if_pos hlen, List.map_cons,
            List.zipWith_cons_cons, npMin3, npMax3]
        · exact cyl_fold_lo (fun v => v.1) (fun a b => rfl) (fun a rr => rfl)
            p ps' r rs'
        · exact cyl_fold_lo (fun v => v.2.1) (fun a b => rfl) (fun a rr => rfl)
            p ps' r rs'
        · exact cyl_fold_lo (fun v => v.2.2) (fun a b => rfl) (fun a rr => rfl)
            p ps' r rs'
        · exact cyl_fold_hi (fun v => v.1) (fun a b => rfl) (fun a rr => rfl)
            p ps' r rs'
        · exact cyl_fold_hi (fun v => v.2.1) (fun a b => rfl) (fun a rr => rfl)
            p ps' r rs'
        · exact cyl_fold_hi (fun v => v.2.2) (fun a b => rfl) (fun a rr => rfl)
            p ps' r rs'
  · norm_num [Cylinder.get_extents, npMin3, npMax3, vmin3, vmax3, vsubS,
      vaddS, min_def, max_def]

/-- Witness for C7: the general part applied to the one-cylinder example
`points=[[[0,0,0],[1,0,0]]]`, `radius=[1/2]` yields extents whose lower
x-corner is the minimum of the deflated endpoint x-coordinates. -/
theorem cylinder_get_extents_minmax_witness :
    ∃ lo hi,
      Cylinder.get_extents [((0, 0, 0), (1, 0, 0))] [1/2] = some (lo, hi) ∧
      isMinOf lo.1 (inflatedLows (fun v => v.1) [((0, 0, 0), (1, 0, 0))] [1/2]) := by
  obtain ⟨lo, hi, h1, h2, -⟩ :=
    cylinder_get_extents_minmax.1 [((0, 0, 0), (1, 0, 0))] [1/2]
      (by decide) (by decide)
  exact ⟨lo, hi, h1, h2⟩

/-- Counterexample for claim C9: on an empty cylinder set (N = 0) the
code reaches the reduction over an empty array and fails there — there
is no guard and no defined result. -/
theorem cylinder_extents_empty_fails :
    (Cylinder.get_extents [] []).isSome = false := by
  decide

/-- Claim C9, amended: `Cylinder.get_extents` does not guard N = 0; for
an empty points buffer it propagates the empty-reduction failure of
`numpy.min` (modelled as `none`) whatever the radius buffer holds. -/
theorem cylinder_extents_empty_unguarded (rs : List ℚ) :
    Cylinder.get_extents [] rs = none := by
  cases rs with
  | nil => rfl
  | cons r rs' => simp [Cylinder.get_extents]

/-- Counterexample for claim C2: an element write to `Box.points`
through the buffer view returned by the `points` property does not
raise — it succeeds and changes the points buffer (the view's
`__setitem__` is inherited unchanged from `util.array`).  The state is
the one `Box.__init__` builds for `box=[2]`. -/
theorem box_points_slice_write_succeeds :
    (Box.points_slice_write (Box.init boxZero [2] none none).1 [0]
        [((5, 5, 5), (6, 6, 6))]).2.2 = none ∧
      (Box.points_slice_write (Box.init boxZero [2] none none).1 [0]
          [((5, 5, 5), (6, 6, 6))]).1.points ≠
        (Box.init boxZero [2] none none).1.points := by
  have hgen : Box._generate_points [2] = .ok (boxEdges 2 2 2 0 0 0) := rfl
  constructor
  · simp [Box.points_slice_write, Box.init, hgen, array.setitem, writeIdxs,
      boxEdges, vadd, vneg, vdiv2]
  · intro heq
    have h0 := congrArg (fun l => l.getD 0 ((0, 0, 0), (0, 0, 0))) heq
    simp [Box.points_slice_write, Box.init, hgen, array.setitem, writeIdxs,
      boxEdges, vadd, vneg, vdiv2] at h0
    norm_num at h0

/-- Claim C2, amended: direct attribute assignment to `Box.points`
always fails with the `AttributeError` (the spec's
ImmutabilityViolation) and leaves the whole Box state — in particular
the points buffer — unchanged; element and slice writes through the
returned buffer view, however, succeed and mutate the buffer, so
reassigning `box` is the sanctioned but not the only mutation path. -/
theorem box_points_attr_assignment_raises (s : BoxState)
    (v : List (V3 × V3)) :
    (Box.points_setter s v).1 = s ∧
      (Box.points_setter s v).2.isSome = true := by
  exact ⟨rfl, rfl⟩

/-- A box parameter of an accepted length makes `_generate_points`
succeed. -/
theorem generate_ok_of_len {b : List ℚ}
    (h : b.length = 1 ∨ b.length = 3 ∨ b.length = 6) :
    ∃ pts, Box._generate_points b = .ok pts := by
  rcases h with h | h | h <;> simp [Box._generate_points, h]

/-- Claim C8: constructing a Box whose box parameter has a length other
than 1, 3, or 6 raises before any buffer is written — points, radius,
color and the material's mix all keep their pre-construction values —
while lengths 1, 3 and 6 are accepted, length 1 being read as the cubic
box `[x,x,x]` and length 3 as the zero-tilt triclinic box
`[x,y,z,0,0,0]`. -/
theorem box_length_validation :
    (∀ (s0 : BoxState) (b : List ℚ) (r : Option ℚ) (c : Option V3),
      b.length ≠ 1 → b.length ≠ 3 → b.length ≠ 6 →
      (Box.init s0 b r c).2.isSome = true ∧
      (Box.init s0 b r c).1.points = s0.points ∧
      (Box.init s0 b r c).1.radius = s0.radius ∧
      (Box.init s0 b r c).1.color = s0.color ∧
      (Box.init s0 b r c).1.primitiveColorMix = s0.primitiveColorMix) ∧
    (∀ (s0 : BoxState) (b : List ℚ) (r : Option ℚ) (c : Option V3),
      b.length = 1 ∨ b.length = 3 ∨ b.length = 6 →
      (Box.init s0 b r c).2 = none) ∧
    (∀ x : ℚ, Box._generate_points [x] = Box._generate_points [x, x, x]) ∧
    (∀ x y z : ℚ,
      Box._generate_points [x, y, z] =
        Box._generate_points [x, y, z, 0, 0, 0]) := by
  refine ⟨?_, ?_, ?_, ?_⟩
  · intro s0 b r c h1 h3 h6
    simp [Box.init, Box._generate_points, h1, h3, h6]
  · intro s0 b r c h
    obtain ⟨pts, hgen⟩ := generate_ok_of_len h
    cases c <;> simp [Box.init, hgen]
  · intro x
    simp [Box._generate_points]
  · intro x y z
    simp [Box._generate_points]

/-- Witness for C8: a length-2 box parameter is rejected with the
zeroed buffers untouched, and `[2,2,2]` is accepted. -/
theorem box_length_validation_witness :
    ((Box.init boxZero [1, 2] none none).2.isSome = true ∧
      (Box.init boxZero [1, 2] none none).1.points = boxZero.points) ∧
    (Box.init boxZero [2, 2, 2] none none).2 = none := by
  refine ⟨?_, ?_⟩
  · obtain ⟨h1, h2, -⟩ := box_length_validation.1 boxZero [1, 2] none none
      (by decide) (by decide) (by decide)
    exact ⟨h1, h2⟩
  · exact box_length_validation.2.1 boxZero [2, 2, 2] none none
      (by decide)

/-- Claim C5: reassigning `Box.box` with a valid parameter `b`
regenerates the points buffer to exactly what a freshly constructed Box
with `box=b` holds (whatever radius and color arguments that fresh Box
was given), succeeds, and leaves the radius and color buffers of the
reassigned Box unchanged. -/
theorem box_setter_regenerates_points (s s0 : BoxState) (b : List ℚ)
    (r : Option ℚ) (c : Option V3)
    (h : b.length = 1 ∨ b.length = 3 ∨ b.length = 6) :
    (Box.box_setter s b).2 = none ∧
    (Box.box_setter s b).1.points = (Box.init s0 b r c).1.points ∧
    (Box.box_setter s b).1.radius = s.radius ∧
    (Box.box_setter s b).1.color = s.color := by
  obtain ⟨pts, hgen⟩ := generate_ok_of_len h
  cases c <;> simp [Box.box_setter, Box.init, hgen]

/-- Witness for C5: reassigning `box=[2,2,2]` on the Box constructed
with `box=[2]` leaves exactly the fresh `box=[2,2,2]` points, with the
radius and color buffers untouched. -/
theorem box_setter_regenerates_points_witness :
    (Box.box_setter (Box.init boxZero [2] none none).1 [2, 2, 2]).2 = none ∧
    (Box.box_setter (Box.init boxZero [2] none none).1 [2, 2, 2]).1.points =
      (Box.init boxZero [2, 2, 2] none none).1.points ∧
    (Box.box_setter (Box.init boxZero [2] none none).1 [2, 2, 2]).1.radius =
      (Box.init boxZero [2] none none).1.radius ∧
    (Box.box_setter (Box.init boxZero [2] none none).1 [2, 2, 2]).1.color =
      (Box.init boxZero [2] none none).1.color :=
  box_setter_regenerates_points (Box.init boxZero [2] none none).1 boxZero
    [2, 2, 2] none none (by decide)

/-- Claim C10: when `Box.__init__` is given a color argument it also
sets the material's `primitive_color_mix` to 1 (so the per-edge color
takes effect); without a color argument the mix keeps whatever value the
default material carried. -/
theorem box_color_sets_primitive_color_mix (s0 : BoxState) (b : List ℚ)
    (r : Option ℚ) (h : b.length = 1 ∨ b.length = 3 ∨ b.length = 6) :
    (∀ col : V3, (Box.init s0 b r (some col)).1.primitiveColorMix = 1) ∧
    (Box.init s0 b r none).1.primitiveColorMix = s0.primitiveColorMix := by
  obtain ⟨pts, hgen⟩ := generate_ok_of_len h
  constructor
  · intro col
    simp [Box.init, hgen]
  · simp [Box.init, hgen]

/-- Witness for C10: constructing with `box=[2,2,2]` and a red color
argument leaves the mix at 1; without a color it stays at the initial
value 0 of `boxZero`. -/
theorem box_color_sets_primitive_color_mix_witness :
    (Box.init boxZero [2, 2, 2] none (some (1, 0, 0))).1.primitiveColorMix = 1 ∧
    (Box.init boxZero [2, 2, 2] none none).1.primitiveColorMix =
      boxZero.primitiveColorMix := by
  have h := box_color_sets_primitive_color_mix boxZero [2, 2, 2] none
    (by decide)
  exact ⟨h.1 (1, 0, 0), h.2⟩

/-- Claim C4: `box=[2,2,2]` generates exactly 12 edge point-pairs; their
24 endpoint coordinates, as a set, are exactly the 8 corners of the cube
`[-1,1]³`, and each corner is an endpoint of exactly 3 of the 12
edges. -/
theorem box222_edges_corners :
    Box._generate_points [2, 2, 2] = .ok edges222 ∧
    edges222.length = 12 ∧
    (endpointsOf edges222).length = 24 ∧
    (∀ x ∈ endpointsOf edges222, x ∈ cubeCorners) ∧
    (∀ c ∈ cubeCorners, c ∈ endpointsOf edges222) ∧
    (∀ c ∈ cubeCorners,
      edges222.countP (fun e => decide (e.1 = c) || decide (e.2 = c)) = 3) := by
  refine ⟨?_, by decide, by decide, by decide, by decide, by decide⟩
  norm_num [Box._generate_points, boxEdges, edges222, vadd, vneg, vdiv2]

/-- Claim C6 shows a divergence between the code and its intent: on the
single triangle `[[0,0,0],[1,0,0],[0,1,0]]` at one instance position
`[0,0,0]`, the source's `Mesh.get_extents` returns `[[0,0,0],[1,1,1]]`
(it reduces the x, y, z coordinate columns to one global scalar and adds
it to every axis), while the documented per-axis
bbox-translate algorithm gives `[[0,0,0],[1,1,0]]` — all template
z-coordinates are 0, yet the code reports a z-extent of 1. -/
theorem mesh_extents_code_bug :
    Mesh.get_extents [(0, 0, 0), (1, 0, 0), (0, 1, 0)] [(0, 0, 0)] =
      some ((0, 0, 0), (1, 1, 1)) ∧
    Mesh.get_extents_spec [(0, 0, 0), (1, 0, 0), (0, 1, 0)] [(0, 0, 0)] =
      some ((0, 0, 0), (1, 1, 0)) ∧
    Mesh.get_extents [(0, 0, 0), (1, 0, 0), (0, 1, 0)] [(0, 0, 0)] ≠
      Mesh.get_extents_spec [(0, 0, 0), (1, 0, 0), (0, 1, 0)] [(0, 0, 0)] := by
  have h1 : Mesh.get_extents [(0, 0, 0), (1, 0, 0), (0, 1, 0)] [(0, 0, 0)] =
      some ((0, 0, 0), (1, 1, 1)) := by
    norm_num [Mesh.get_extents, minL, maxL, npMin3, npMax3, vmin3, vmax3,
      vaddS, min_def, max_def]
  have h2 : Mesh.get_extents_spec [(0, 0, 0), (1, 0, 0), (0, 1, 0)]
      [(0, 0, 0)] = some ((0, 0, 0), (1, 1, 0)) := by
    norm_num [Mesh.get_extents_spec, npMin3, npMax3, vmin3, vmax3, vadd,
      min_def, max_def]
  refine ⟨h1, h2, ?_⟩
  rw [h1, h2]
  decide

end Fresnel
